import Mathlib

/-!
Shallow embedding of the submission-analysis core of
`pd-assignment-system/app.py`: the `SubmissionAnalyzer` class
(`analyze_answer`, `calculate_metrics`, `validate_submission`) and the
`EnhancedSubmissionManager` class (`auto_save_submission`,
`submit_submission`), together with theorems checking the repository's
natural-language specification against this embedding.

Modelling conventions: Python strings are modelled as `List Char` (with
`String` literals converted through `String.data`), and the Python
string primitives (`strip`, `lower`, `split`, substring containment)
are re-implemented structurally below so they compute by kernel
reduction.  Python `float` values computed from exact integer data are
modelled as rationals (`ℚ`); Python dictionaries are modelled as
association lists; `datetime.now()` timestamps are threaded in as an
explicit `now` argument; f-string messages whose content is never
branched on are modelled as structured values carrying the interpolated
data.
-/

attribute [local semireducible] Rat.add Rat.mul Rat.inv Rat.sub

set_option linter.unusedVariables false
set_option maxRecDepth 100000

/-- The `SubmissionStatus` enum of `app.py`. -/
inductive SubmissionStatus where
  | draft
  | submitted
  | under_review
  | graded
  | returned
  deriving DecidableEq, Repr

/-- The `AnswerQuality` enum of `app.py`. -/
inductive AnswerQuality where
  | excellent
  | good
  | fair
  | poor
  | missing
  deriving DecidableEq, Repr

/-- The string `value` of each `AnswerQuality` member in `app.py`. -/
def AnswerQuality.value : AnswerQuality → List Char
  | .excellent => "excellent".data
  | .good => "good".data
  | .fair => "fair".data
  | .poor => "poor".data
  | .missing => "missing".data

/-- The members of `AnswerQuality` in declaration order; Python's
`for quality in AnswerQuality` iterates in this order. -/
def AnswerQuality.members : List AnswerQuality :=
  [.excellent, .good, .fair, .poor, .missing]

/-- The `AnswerAnalysis` dataclass of `app.py`.  The two trailing fields
have Python default values `0`. -/
structure AnswerAnalysis where
  word_count : Nat
  character_count : Nat
  quality : AnswerQuality
  has_technical_terms : Bool
  has_examples : Bool
  readability_score : ℚ
  estimated_time_spent : Nat
  edit_count : Nat := 0
  time_spent_seconds : Nat := 0
  deriving DecidableEq, Repr

/-- Python's ASCII whitespace characters (the ones `str.strip` and
argument-less `str.split` treat as separators). -/
def pyWs (c : Char) : Bool :=
  c == ' ' || c == '\t' || c == '\n' || c == '\x0d' || c == '\x0b' || c == '\x0c'

/-- Python `str.strip()`: drop whitespace from both ends. -/
def pyStrip (l : List Char) : List Char :=
  ((l.dropWhile pyWs).reverse.dropWhile pyWs).reverse

/-- Python `str.lower()` (ASCII case folding). -/
def pyLower (l : List Char) : List Char :=
  l.map Char.toLower

/-- Character-list prefix test, auxiliary for substring search. -/
def isPre : List Char → List Char → Bool
  | a :: as, b :: bs => if a == b then isPre as bs else false
  | needle, _ => needle.isEmpty

/-- Python's `needle in hay` substring test: `needle` occurs as a
contiguous sublist of the second argument. -/
def containsSub (needle : List Char) : List Char → Bool
  | [] => isPre needle []
  | c :: t => isPre needle (c :: t) || containsSub needle t

/-- Split at every character satisfying `p`, keeping empty pieces
(the behaviour of splitting on a single separator character). -/
def splitByChar (p : Char → Bool) : List Char → List (List Char)
  | [] => [[]]
  | c :: t =>
    if p c then [] :: splitByChar p t
    else
      match splitByChar p t with
      | [] => [[c]]
      | h :: r => (c :: h) :: r

/-- Python `str.split()` with no argument: split on whitespace,
discarding empty pieces. -/
def pySplit (l : List Char) : List (List Char) :=
  (splitByChar pyWs l).filter (fun w => !w.isEmpty)

/-- Python `answer.split (two newline characters)`: split on the literal
two-character separator, scanning left to right. -/
def splitParagraphSep : List Char → List (List Char)
  | '\n' :: '\n' :: t => [] :: splitParagraphSep t
  | c :: t =>
    match splitParagraphSep t with
    | [] => [[c]]
    | h :: r => (c :: h) :: r
  | [] => [[]]

/-- `SubmissionAnalyzer.TECHNICAL_TERMS` of `app.py`, a dict from topic
to its lexicon of domain terms. -/
def TECHNICAL_TERMS : List (List Char × List (List Char)) :=
  [("floorplanning".data,
    ["macro".data, "placement".data, "routing".data, "congestion".data,
     "utilization".data, "aspect ratio".data, "pin assignment".data,
     "power planning".data]),
   ("placement".data,
    ["timing".data, "setup".data, "hold".data, "slack".data, "skew".data,
     "fanout".data, "load".data, "critical path".data, "optimization".data]),
   ("routing".data,
    ["DRC".data, "via".data, "metal layer".data, "resistance".data,
     "capacitance".data, "crosstalk".data, "wire delay".data,
     "RC extraction".data])]

/-- The `example_phrases` list inside `analyze_answer` in `app.py`. -/
def example_phrases : List (List Char) :=
  ["for example".data, "such as".data, "like".data, "consider".data,
   "suppose".data, "for instance".data, "e.g.".data, "i.e.".data,
   "namely".data, "including".data, "case study".data, "scenario".data,
   "implementation".data]

/-- Sentence count of `analyze_answer`: `app.py` splits with `re.split`
on runs of `.`, `!`, `?` and keeps fragments with non-whitespace
content.  Splitting at every single terminator character and then
filtering blank fragments yields exactly the same count, since pieces
between adjacent terminators are empty and get filtered. -/
def sentence_count (answer : List Char) : Nat :=
  ((splitByChar (fun c => c == '.' || c == '!' || c == '?') answer).filter
    (fun s => !(pyStrip s).isEmpty)).length

/-- Paragraph count of `analyze_answer`: split on the literal
two-newline separator and keep fragments with non-whitespace content. -/
def paragraph_count (answer : List Char) : Nat :=
  ((splitParagraphSep answer).filter (fun p => !(pyStrip p).isEmpty)).length

/-- Word count of `analyze_answer`: `answer.split()` guarded by the
truthiness of `answer.strip()`. -/
def word_count_of (answer : List Char) : Nat :=
  (if !(pyStrip answer).isEmpty then pySplit answer else []).length

/-- `SubmissionAnalyzer.analyze_answer` of `app.py`.  `question_topic`
models the Python optional argument (`None` as `none`, and the Python
truthiness guard `if question_topic` makes the empty-string topic behave
like `None`); `question_index` is accepted but unused, exactly as in the
source. -/
def analyze_answer (answer : List Char) (question_topic : Option (List Char) := none)
    (question_index : Nat := 0) : AnswerAnalysis :=
  let word_count := word_count_of answer
  let char_count := (pyStrip answer).length
  let quality :=
    if word_count ≥ 300 then AnswerQuality.excellent
    else if word_count ≥ 200 then AnswerQuality.good
    else if word_count ≥ 150 then AnswerQuality.fair
    else if word_count ≥ 50 then AnswerQuality.poor
    else AnswerQuality.missing
  let has_technical_terms :=
    match question_topic with
    | none => false
    | some topic =>
      if topic.isEmpty then false
      else
        match TECHNICAL_TERMS.lookup topic with
        | none => false
        | some terms =>
          let answer_lower := pyLower answer
          let technical_count := terms.countP (fun term => containsSub term answer_lower)
          decide (technical_count ≥ 2)
  let has_examples :=
    example_phrases.any (fun phrase => containsSub phrase (pyLower answer))
  let sentences := sentence_count answer
  let paragraphs := paragraph_count answer
  let readability_score : ℚ :=
    if sentences > 0 then
      let avg_sentence_length : ℚ := (word_count : ℚ) / (sentences : ℚ)
      let base := min 10 (10 - |avg_sentence_length - 15| * (1/5))
      if paragraphs > 1 then base + 1 else base
    else 0
  let base_time := word_count / 50
  let complexity_bonus := if has_technical_terms then 1 else 0
  let structure_bonus := if paragraphs > 1 then 1 else 0
  let estimated_time := max 1 (base_time + complexity_bonus + structure_bonus)
  { word_count := word_count
    character_count := char_count
    quality := quality
    has_technical_terms := has_technical_terms
    has_examples := has_examples
    readability_score := readability_score
    estimated_time_spent := estimated_time }

example : (analyze_answer "".data none 0).word_count = 0 := by decide
example : (analyze_answer "".data none 0).estimated_time_spent = 1 := by decide
example : (analyze_answer "macro".data (some "floorplanning".data) 0).has_technical_terms = false := by decide
example : (analyze_answer "macro routing x".data (some "floorplanning".data) 0).has_technical_terms = true := by decide
example : (analyze_answer "a b. c\n\nd".data none 0).readability_score = 42/5 := by decide

/-- The `SubmissionMetrics` dataclass of `app.py`.  The
`quality_distribution` dict is modelled as an association list in the
insertion order of the Python loop over `AnswerQuality`. -/
structure SubmissionMetrics where
  total_words : Nat
  average_words_per_answer : ℚ
  completion_percentage : ℚ
  quality_distribution : List (List Char × Nat)
  estimated_total_time : Nat
  technical_depth_score : ℚ
  overall_quality_score : ℚ
  deriving DecidableEq, Repr

/-- The per-answer score computed by the loop body of
`SubmissionAnalyzer.calculate_metrics` in `app.py`: a base score by
quality tier, plus bonuses, capped at 100. -/
def answer_quality_score (analysis : AnswerAnalysis) : ℚ :=
  let base : ℚ :=
    match analysis.quality with
    | .excellent => 95
    | .good => 85
    | .fair => 75
    | .poor => 60
    | .missing => 0
  let s1 := if analysis.has_technical_terms then base + 5 else base
  let s2 := if analysis.has_examples then s1 + 5 else s1
  let s3 := if analysis.readability_score > 7 then s2 + 3 else s2
  min 100 s3

/-- `SubmissionAnalyzer.calculate_metrics` of `app.py`. -/
def calculate_metrics (analyses : List AnswerAnalysis) : SubmissionMetrics :=
  let total_words : Nat := (analyses.map (·.word_count)).sum
  let answered_count := analyses.countP (fun a => decide (a.quality ≠ AnswerQuality.missing))
  let avg_words : ℚ :=
    if !analyses.isEmpty then (total_words : ℚ) / (analyses.length : ℚ) else 0
  let completion_pct : ℚ :=
    if !analyses.isEmpty then ((answered_count : ℚ) / (analyses.length : ℚ)) * 100 else 0
  let quality_dist := AnswerQuality.members.map
    (fun q => (q.value, analyses.countP (fun a => decide (a.quality = q))))
  let total_time := (analyses.map (·.estimated_time_spent)).sum
  let technical_answers := analyses.countP (·.has_technical_terms)
  let tech_score : ℚ :=
    if !analyses.isEmpty then ((technical_answers : ℚ) / (analyses.length : ℚ)) * 100 else 0
  let quality_scores := analyses.map answer_quality_score
  let overall_quality : ℚ :=
    if !quality_scores.isEmpty then quality_scores.sum / (quality_scores.length : ℚ) else 0
  { total_words := total_words
    average_words_per_answer := avg_words
    completion_percentage := completion_pct
    quality_distribution := quality_dist
    estimated_total_time := total_time
    technical_depth_score := tech_score
    overall_quality_score := overall_quality }

/-- The issue messages that `validate_submission` can append, modelled
as structured values carrying the data interpolated into the Python
f-strings (message text is never branched on). -/
inductive ValidationIssue where
  | missing_answers (count : Nat)
  | low_quality_score (score : ℚ)
  deriving DecidableEq, Repr

/-- The warning messages that `validate_submission` can append,
modelled like `ValidationIssue`. -/
inductive ValidationWarning where
  | below_recommended_length (count : Nat)
  | low_technical_depth
  | low_average_length (avg : ℚ)
  deriving DecidableEq, Repr

/-- The `(is_complete, issues, warnings)` tuple returned by
`validate_submission`. -/
structure ValidationResult where
  is_complete : Bool
  issues : List ValidationIssue
  warnings : List ValidationWarning
  deriving DecidableEq, Repr

/-- `SubmissionAnalyzer.validate_submission` of `app.py`. -/
def validate_submission (answers : List (List Char))
    (assignment_topic : Option (List Char) := none) : ValidationResult :=
  let analyses := answers.enum.map (fun p => analyze_answer p.2 assignment_topic p.1)
  let metrics := calculate_metrics analyses
  let missing_count := analyses.countP (fun a => decide (a.quality = AnswerQuality.missing))
  let issues : List ValidationIssue :=
    if missing_count > 0 then [.missing_answers missing_count] else []
  let poor_count := analyses.countP (fun a => decide (a.quality = AnswerQuality.poor))
  let warnings : List ValidationWarning :=
    if poor_count > 3 then [.below_recommended_length poor_count] else []
  let warnings := warnings ++
    (if metrics.technical_depth_score < 40 then [.low_technical_depth] else [])
  let issues := issues ++
    (if metrics.overall_quality_score < 70 then [.low_quality_score metrics.overall_quality_score] else [])
  let warnings := warnings ++
    (if metrics.average_words_per_answer < 180 then [.low_average_length metrics.average_words_per_answer] else [])
  { is_complete := issues.length == 0
    issues := issues
    warnings := warnings }

example : (calculate_metrics []).overall_quality_score = 0 := by decide
example : (validate_submission [] none).is_complete = false := by decide
example : (validate_submission ["".data] none).is_complete = false := by decide

/-- The `Assignment` dataclass of `app.py`; the manager consumes only
its `topic` for lexicon selection. -/
structure Assignment where
  id : List Char
  title : List Char
  topic : List Char
  difficulty : Nat
  questions : List (List Char)
  deliverables : List (List Char)
  due_date : List Char
  points : Nat
  created_date : List Char
  engineer_id : List Char
  deriving DecidableEq, Repr

/-- The `EnhancedSubmission` dataclass of `app.py`. -/
structure EnhancedSubmission where
  submission_id : List Char
  assignment_id : List Char
  engineer_id : List Char
  status : SubmissionStatus
  answers : List (List Char)
  answer_analyses : List AnswerAnalysis
  metrics : SubmissionMetrics
  created_date : List Char
  last_modified : List Char
  submitted_date : Option (List Char)
  is_complete : Bool
  quality_issues : List ValidationIssue
  warnings : List ValidationWarning
  version : Nat
  auto_saves : List (List Char)
  time_spent : List (List Char × Nat)
  deriving DecidableEq, Repr

/-- The snapshot dict stored into `auto_save_store` by
`auto_save_submission`. -/
structure AutoSaveSnapshot where
  timestamp : List Char
  answers : List (List Char)
  metrics : SubmissionMetrics
  deriving DecidableEq, Repr

/-- The module-level mutable stores that `EnhancedSubmissionManager`
reads and writes (`assignments_store`, `enhanced_submissions_store`,
`auto_save_store`), modelled as one explicit state record of
association lists. -/
structure ManagerState where
  assignments_store : List (List Char × Assignment)
  submissions : List (List Char × EnhancedSubmission)
  auto_saves : List (List Char × AutoSaveSnapshot)
  deriving DecidableEq, Repr

/-- Python dict assignment `d[k] = v` on the association-list model:
replace the value at an existing key, append a new key at the end. -/
def dictSet {α : Type} (d : List (List Char × α)) (k : List Char) (v : α) :
    List (List Char × α) :=
  if d.any (fun p => p.1 == k) then
    d.map (fun p => if p.1 == k then (k, v) else p)
  else d ++ [(k, v)]

/-- Python `d.update(upd)` on the association-list model. -/
def dictUpdate {α : Type} (d upd : List (List Char × α)) : List (List Char × α) :=
  upd.foldl (fun acc p => dictSet acc p.1 p.2) d

/-- Python `str(n)` for a natural number. -/
def natChars (n : Nat) : List Char :=
  (Nat.repr n).data

/-- `EnhancedSubmissionManager.auto_save_submission` of `app.py`.  The
Python method mutates the stores and returns a bool; here it maps the
explicit store state to the new state paired with that bool.  The
truthiness guard `if time_spent:` makes `None` and the empty dict
equivalent. -/
def auto_save_submission (st : ManagerState) (submission_id : List Char)
    (answers : List (List Char)) (time_spent : Option (List (List Char × Nat)))
    (now : List Char) : ManagerState × Bool :=
  match st.submissions.lookup submission_id with
  | none => (st, false)
  | some submission =>
    if submission.status ≠ SubmissionStatus.draft then (st, false)
    else
      let last_modified := now
      let auto_saves := submission.auto_saves ++ [last_modified]
      let time_spent_dict :=
        match time_spent with
        | some ts => if !ts.isEmpty then dictUpdate submission.time_spent ts
                     else submission.time_spent
        | none => submission.time_spent
      let assignment_key := submission.assignment_id ++ "_".data ++ submission.engineer_id
      let topic := (st.assignments_store.lookup assignment_key).map (·.topic)
      let analyses := answers.enum.map (fun p => analyze_answer p.2 topic p.1)
      let analyses := analyses.enum.map (fun p =>
        match time_spent_dict.lookup (natChars p.1) with
        | some t => { p.2 with time_spent_seconds := t }
        | none => p.2)
      let metrics := calculate_metrics analyses
      let v := validate_submission answers topic
      let submission' := { submission with
        answers := answers
        last_modified := last_modified
        auto_saves := auto_saves
        time_spent := time_spent_dict
        answer_analyses := analyses
        metrics := metrics
        is_complete := v.is_complete
        quality_issues := v.issues
        warnings := v.warnings }
      let save_key := submission_id ++ "_".data ++ natChars auto_saves.length
      let snapshot : AutoSaveSnapshot :=
        { timestamp := last_modified, answers := answers, metrics := metrics }
      ({ st with
          submissions := dictSet st.submissions submission_id submission'
          auto_saves := dictSet st.auto_saves save_key snapshot },
       true)

/-- The `(success, message)` tuple returned by `submit_submission`,
with each f-string message modelled as a structured value carrying the
interpolated data. -/
inductive SubmitResult where
  | not_found
  | wrong_status (status : SubmissionStatus)
  | validation_failed (issues : List ValidationIssue)
  | success (score : ℚ)
  deriving DecidableEq, Repr

/-- Whether a `SubmitResult` is the Python `(True, ...)` outcome. -/
def SubmitResult.is_success : SubmitResult → Bool
  | .success _ => true
  | _ => false

/-- `EnhancedSubmissionManager.submit_submission` of `app.py`, with the
store state made explicit like `auto_save_submission`. -/
def submit_submission (st : ManagerState) (submission_id : List Char)
    (final_answers : List (List Char)) (now : List Char) :
    ManagerState × SubmitResult :=
  match st.submissions.lookup submission_id with
  | none => (st, SubmitResult.not_found)
  | some submission =>
    if submission.status ≠ SubmissionStatus.draft then
      (st, SubmitResult.wrong_status submission.status)
    else
      let assignment_key := submission.assignment_id ++ "_".data ++ submission.engineer_id
      let topic := (st.assignments_store.lookup assignment_key).map (·.topic)
      let v := validate_submission final_answers topic
      if !v.is_complete then (st, SubmitResult.validation_failed v.issues)
      else
        let submitted_date := now
        let analyses := final_answers.enum.map (fun p => analyze_answer p.2 topic p.1)
        let metrics := calculate_metrics analyses
        let submission' := { submission with
          answers := final_answers
          status := SubmissionStatus.submitted
          submitted_date := some submitted_date
          last_modified := submitted_date
          answer_analyses := analyses
          metrics := metrics
          is_complete := true
          quality_issues := []
          version := submission.version + 1 }
        ({ st with submissions := dictSet st.submissions submission_id submission' },
         SubmitResult.success metrics.overall_quality_score)

example : natChars 12 = ['1', '2'] := by decide

/-- The quality-tier split exactly as claim C1 words it, with two-sided
ranges (refinement reference; to be compared with the tier computed by
`analyze_answer`). -/
def spec_quality_tier (word_count : Nat) : AnswerQuality :=
  if 300 ≤ word_count then AnswerQuality.excellent
  else if 200 ≤ word_count ∧ word_count < 300 then AnswerQuality.good
  else if 150 ≤ word_count ∧ word_count < 200 then AnswerQuality.fair
  else if 50 ≤ word_count ∧ word_count < 150 then AnswerQuality.poor
  else AnswerQuality.missing

/-- Number of lexicon terms occurring in the lowercased answer, the
`technical_count` of `analyze_answer`. -/
def matched_term_count (answer : List Char) (terms : List (List Char)) : Nat :=
  terms.countP (fun term => containsSub term (pyLower answer))

/-- The floorplanning lexicon, spelled out (the value of
`TECHNICAL_TERMS` at key `floorplanning`). -/
def floorplanning_terms : List (List Char) :=
  ["macro".data, "placement".data, "routing".data, "congestion".data,
   "utilization".data, "aspect ratio".data, "pin assignment".data,
   "power planning".data]

/-- The per-answer score exactly as claim C3 words it: tier base plus
+5 for technical terms and +5 for examples, capped at 100, with nothing
else contributing (refinement reference for the C3 counterexample). -/
def spec_score_C3 (a : AnswerAnalysis) : ℚ :=
  let base : ℚ :=
    match a.quality with
    | .excellent => 95
    | .good => 85
    | .fair => 75
    | .poor => 60
    | .missing => 0
  min 100 (base + (if a.has_technical_terms then 5 else 0) +
    (if a.has_examples then 5 else 0))

/-- The per-answer score as amended for claim C3: like `spec_score_C3`
but additionally +3 when `readability_score > 7`, still capped at 100. -/
def amended_score_C3 (a : AnswerAnalysis) : ℚ :=
  let base : ℚ :=
    match a.quality with
    | .excellent => 95
    | .good => 85
    | .fair => 75
    | .poor => 60
    | .missing => 0
  min 100 (base + (if a.has_technical_terms then 5 else 0) +
    (if a.has_examples then 5 else 0) + (if a.readability_score > 7 then 3 else 0))

/-- The readability formula as amended for claim C8: `0` with no
sentences, otherwise `min 10 (10 - 0.2 * |avg - 15|)` plus a `+1`
structure bonus when there is more than one paragraph, with no lower
clamp at 0. -/
def spec_readability (answer : List Char) : ℚ :=
  if sentence_count answer = 0 then 0
  else
    (min 10 (10 - (1/5) * |(word_count_of answer : ℚ) / (sentence_count answer : ℚ) - 15|)) +
      (if 1 < paragraph_count answer then 1 else 0)

/-- A 52-word two-paragraph text (50 copies of `a`, then `b`, a blank
line, and `c`): a concrete input for the C4 counterexample where the
structure bonus makes `estimated_time_spent` exceed the claimed
`max 1 (word_count / 50)`. -/
def c4Text : List Char :=
  (List.replicate 50 ['a', ' ']).flatten ++ "b\n\nc".data

/-- A 70-word single-sentence text (69 copies of `a`, then `b.`): a
concrete input for the C8 counterexample with average sentence length
70, driving the unclamped readability formula to `-1`. -/
def c8Text : List Char :=
  (List.replicate 69 ['a', ' ']).flatten ++ "b.".data

/-- A 150-word answer (150 copies of `a`): lands in the `fair` tier
with per-answer score 75, enough for a submission to validate. -/
def c7Text : List Char :=
  (List.replicate 150 ['a', ' ']).flatten

/-- A draft submission fixture used to exercise the manager
transitions concretely. -/
def draftSub : EnhancedSubmission :=
  { submission_id := "s1".data
    assignment_id := "a1".data
    engineer_id := "e1".data
    status := SubmissionStatus.draft
    answers := ["".data]
    answer_analyses := []
    metrics := calculate_metrics []
    created_date := "t0".data
    last_modified := "t0".data
    submitted_date := none
    is_complete := false
    quality_issues := []
    warnings := []
    version := 1
    auto_saves := []
    time_spent := [] }

/-- A manager state holding just `draftSub` and no assignments. -/
def draftState : ManagerState :=
  { assignments_store := []
    submissions := [("s1".data, draftSub)]
    auto_saves := [] }

/-- A manager state with no submissions at all. -/
def emptyState : ManagerState :=
  { assignments_store := []
    submissions := []
    auto_saves := [] }

theorem analyze_answer_word_count (answer : List Char) (topic : Option (List Char)) (i : Nat) :
    (analyze_answer answer topic i).word_count = word_count_of answer := rfl

theorem analyze_answer_quality (answer : List Char) (topic : Option (List Char)) (i : Nat) :
    (analyze_answer answer topic i).quality =
      (if word_count_of answer ≥ 300 then AnswerQuality.excellent
       else if word_count_of answer ≥ 200 then AnswerQuality.good
       else if word_count_of answer ≥ 150 then AnswerQuality.fair
       else if word_count_of answer ≥ 50 then AnswerQuality.poor
       else AnswerQuality.missing) := rfl

theorem analyze_answer_has_technical_terms (answer : List Char) (topic : List Char) (i : Nat) :
    (analyze_answer answer (some topic) i).has_technical_terms =
      (if topic.isEmpty then false
       else
         match TECHNICAL_TERMS.lookup topic with
         | none => false
         | some terms => decide (2 ≤ matched_term_count answer terms)) := rfl

theorem analyze_answer_readability (answer : List Char) (topic : Option (List Char)) (i : Nat) :
    (analyze_answer answer topic i).readability_score =
      (if sentence_count answer > 0 then
        (if paragraph_count answer > 1 then
          min 10 (10 - |(word_count_of answer : ℚ) / (sentence_count answer : ℚ) - 15| * (1/5)) + 1
         else
          min 10 (10 - |(word_count_of answer : ℚ) / (sentence_count answer : ℚ) - 15| * (1/5)))
       else 0) := rfl

theorem analyze_answer_estimated_time (answer : List Char) (topic : Option (List Char)) (i : Nat) :
    (analyze_answer answer topic i).estimated_time_spent =
      max 1 (word_count_of answer / 50 +
        (if (analyze_answer answer topic i).has_technical_terms then 1 else 0) +
        (if paragraph_count answer > 1 then 1 else 0)) := rfl

/-- Claim C10: the result of `analyze_answer` is independent of its
`question_index` argument: for every answer text, topic and pair of
indices, the two analyses coincide. -/
theorem claim_C10 (answer : List Char) (topic : Option (List Char)) (i j : Nat) :
    analyze_answer answer topic i = analyze_answer answer topic j := rfl

/-- Claim C6: `calculate_metrics` on the empty list of analyses returns
all-zero metrics with a quality distribution mapping all five tiers
to 0 (and, being a total function of the embedding, it does not
raise). -/
theorem claim_C6 :
    calculate_metrics [] =
      { total_words := 0
        average_words_per_answer := 0
        completion_percentage := 0
        quality_distribution :=
          [("excellent".data, 0), ("good".data, 0), ("fair".data, 0),
           ("poor".data, 0), ("missing".data, 0)]
        estimated_total_time := 0
        technical_depth_score := 0
        overall_quality_score := 0 } := by decide

/-- Claim C1: the quality tier of `analyze_answer` is determined
exactly by `word_count` through the documented thresholds, and each
boundary input (299 vs 300, 199 vs 200, 149 vs 150, 49 vs 50) lands on
the documented side of its split. -/
theorem claim_C1 (answer : List Char) (topic : Option (List Char)) (i : Nat) :
    ((analyze_answer answer topic i).quality =
      spec_quality_tier (analyze_answer answer topic i).word_count) ∧
    spec_quality_tier 299 = AnswerQuality.good ∧
    spec_quality_tier 300 = AnswerQuality.excellent ∧
    spec_quality_tier 199 = AnswerQuality.fair ∧
    spec_quality_tier 200 = AnswerQuality.good ∧
    spec_quality_tier 149 = AnswerQuality.poor ∧
    spec_quality_tier 150 = AnswerQuality.fair ∧
    spec_quality_tier 49 = AnswerQuality.missing ∧
    spec_quality_tier 50 = AnswerQuality.poor := by
  refine ⟨?_, by decide, by decide, by decide, by decide, by decide, by decide,
    by decide, by decide⟩
  rw [analyze_answer_quality, analyze_answer_word_count]
  generalize word_count_of answer = wc
  unfold spec_quality_tier
  split_ifs <;> first | rfl | omega

/-- Claim C3 counterexample: for the single analysis with tier
Excellent, no technical terms, no examples and readability 8, the
claim's per-answer formula gives 95, but `calculate_metrics` computes
an overall score of 98 — the +3 readability bonus in the code also
contributes. -/
theorem claim_C3_counterexample :
    (calculate_metrics [⟨400, 400, AnswerQuality.excellent, false, false, 8, 1, 0, 0⟩]).overall_quality_score = 98 ∧
    spec_score_C3 ⟨400, 400, AnswerQuality.excellent, false, false, 8, 1, 0, 0⟩ = 95 ∧
    (98 : ℚ) ≠ 95 := by decide

/-- Claim C3 as amended: the per-answer score also gets +3 when
`readability_score > 7` (before the cap at 100); with that extra bonus
term the overall score is exactly the mean of the per-answer scores. -/
theorem claim_C3 (analyses : List AnswerAnalysis) (h : analyses ≠ []) :
    (calculate_metrics analyses).overall_quality_score =
      (analyses.map amended_score_C3).sum / (analyses.length : ℚ) := by
  have hag : ∀ a : AnswerAnalysis, answer_quality_score a = amended_score_C3 a := by
    intro a
    unfold answer_quality_score amended_score_C3
    rcases a with ⟨wc, cc, q, tech, ex, rs, et, ec, ts⟩
    cases q <;> cases tech <;> cases ex <;> simp only [] <;> split_ifs <;> norm_num
  show (if !(analyses.map answer_quality_score).isEmpty then
          (analyses.map answer_quality_score).sum / ((analyses.map answer_quality_score).length : ℚ)
        else 0) =
      (analyses.map amended_score_C3).sum / (analyses.length : ℚ)
  have hne : (analyses.map answer_quality_score).isEmpty = false := by
    cases analyses with
    | nil => exact absurd rfl h
    | cons a t => rfl
  rw [hne]
  simp only [Bool.not_false, ite_true, List.length_map]
  congr 1
  exact congrArg List.sum (List.map_congr_left (fun a _ => hag a))

/-- Claim C3 witness: the amended mean formula evaluated on a concrete
one-element list. -/
theorem claim_C3_witness :
    (calculate_metrics [⟨400, 400, AnswerQuality.excellent, false, false, 8, 1, 0, 0⟩]).overall_quality_score =
      ([(⟨400, 400, AnswerQuality.excellent, false, false, 8, 1, 0, 0⟩ : AnswerAnalysis)].map amended_score_C3).sum /
        (([(⟨400, 400, AnswerQuality.excellent, false, false, 8, 1, 0, 0⟩ : AnswerAnalysis)] : List AnswerAnalysis).length : ℚ) :=
  claim_C3 [⟨400, 400, AnswerQuality.excellent, false, false, 8, 1, 0, 0⟩] (by decide)

/-- Claim C4 counterexample: the empty string gets
`estimated_time_spent = 1`, not 0 (the code takes `max 1 ...`
unconditionally); and on the 52-word two-paragraph text `c4Text` the
structure bonus gives 2 where the claim's `max 1 (52 / 50)` gives 1. -/
theorem claim_C4_counterexample :
    ((analyze_answer "".data none 0).word_count = 0 ∧
      (analyze_answer "".data none 0).estimated_time_spent = 1 ∧ (1 : Nat) ≠ 0) ∧
    ((analyze_answer c4Text none 0).word_count = 52 ∧
      (analyze_answer c4Text none 0).estimated_time_spent = 2 ∧
      max 1 (52 / 50) = 1) := by decide

/-- Claim C4 as amended: on the empty string `analyze_answer` returns
`word_count = 0`, `character_count = 0`, quality Missing and
`estimated_time_spent = 1` (never 0); and for every text,
`estimated_time_spent = max 1 (word_count / 50 + complexity bonus +
structure bonus)`, where the complexity bonus is 1 when the answer has
technical terms and the structure bonus is 1 when it has more than one
paragraph. -/
theorem claim_C4 :
    ((analyze_answer "".data none 0).word_count = 0 ∧
      (analyze_answer "".data none 0).character_count = 0 ∧
      (analyze_answer "".data none 0).quality = AnswerQuality.missing ∧
      (analyze_answer "".data none 0).estimated_time_spent = 1) ∧
    ∀ (answer : List Char) (topic : Option (List Char)) (i : Nat),
      (analyze_answer answer topic i).estimated_time_spent =
        max 1 ((analyze_answer answer topic i).word_count / 50 +
          (if (analyze_answer answer topic i).has_technical_terms then 1 else 0) +
          (if paragraph_count answer > 1 then 1 else 0)) :=
  ⟨by decide, fun answer topic i => rfl⟩

/-- Claim C5 counterexample: with topic `floorplanning`, the answer
`macro` matches exactly one lexicon term, yet `has_technical_terms` is
false — the code requires at least 2 matched terms, not the claimed 1. -/
theorem claim_C5_counterexample :
    TECHNICAL_TERMS.lookup "floorplanning".data = some floorplanning_terms ∧
    matched_term_count "macro".data floorplanning_terms = 1 ∧
    (analyze_answer "macro".data (some "floorplanning".data) 0).has_technical_terms = false := by
  decide

/-- Claim C5 as amended: for every topic that has an associated
lexicon, `has_technical_terms` is true iff at least 2 lexicon terms
occur case-insensitively as substrings of the answer. -/
theorem claim_C5 (answer topic : List Char) (terms : List (List Char))
    (h : TECHNICAL_TERMS.lookup topic = some terms) (i : Nat) :
    (analyze_answer answer (some topic) i).has_technical_terms = true ↔
      2 ≤ matched_term_count answer terms := by
  rw [analyze_answer_has_technical_terms]
  have htop : topic.isEmpty = false := by
    cases topic with
    | nil =>
      have hnone : TECHNICAL_TERMS.lookup ([] : List Char) = none := by decide
      rw [hnone] at h
      cases h
    | cons c t => rfl
  rw [htop, if_neg (by simp), h]
  simp

/-- Claim C5 witness: the amended equivalence at the concrete answer
`macro routing x` under topic `floorplanning`. -/
theorem claim_C5_witness :
    (analyze_answer "macro routing x".data (some "floorplanning".data) 0).has_technical_terms = true ↔
      2 ≤ matched_term_count "macro routing x".data floorplanning_terms :=
  claim_C5 "macro routing x".data "floorplanning".data floorplanning_terms (by decide) 0

/-- Claim C8 counterexample: on the 70-word single-sentence text
`c8Text` the readability score is `-1`, outside the claimed range
`[0, 10]` — the code never clamps below at 0. -/
theorem claim_C8_counterexample :
    (analyze_answer c8Text none 0).readability_score = -1 ∧
    ¬ (0 ≤ (analyze_answer c8Text none 0).readability_score) := by decide

/-- Claim C8 as amended: the readability score equals 0 when the text
has no sentences, and otherwise equals
`min 10 (10 - 0.2 * |avg_sentence_length - 15|)` plus a +1 structure
bonus when there is more than one paragraph; it is not clamped below at
0 (it can be negative), and it is bounded above by 11, not 10. -/
theorem claim_C8 (answer : List Char) (topic : Option (List Char)) (i : Nat) :
    (analyze_answer answer topic i).readability_score = spec_readability answer ∧
    (analyze_answer answer topic i).readability_score ≤ 11 := by
  rw [analyze_answer_readability]
  constructor
  · unfold spec_readability
    split_ifs <;> first | (exfalso; omega) | simp [mul_comm]
  · have hmin := min_le_left (10 : ℚ)
      (10 - |(word_count_of answer : ℚ) / (sentence_count answer : ℚ) - 15| * (1/5))
    split_ifs with h1 h2
    · linarith
    · linarith
    · norm_num

/-- The per-question analyses computed inside `validate_submission`,
`auto_save_submission` and `submit_submission`. -/
def submission_analyses (answers : List (List Char)) (topic : Option (List Char)) :
    List AnswerAnalysis :=
  answers.enum.map (fun p => analyze_answer p.2 topic p.1)

theorem validate_submission_issues (answers : List (List Char)) (topic : Option (List Char)) :
    (validate_submission answers topic).issues =
      (if (submission_analyses answers topic).countP
            (fun a => decide (a.quality = AnswerQuality.missing)) > 0 then
         [ValidationIssue.missing_answers ((submission_analyses answers topic).countP
            (fun a => decide (a.quality = AnswerQuality.missing)))]
       else []) ++
      (if (calculate_metrics (submission_analyses answers topic)).overall_quality_score < 70 then
         [ValidationIssue.low_quality_score
            ((calculate_metrics (submission_analyses answers topic)).overall_quality_score)]
       else []) := rfl

theorem validate_submission_is_complete (answers : List (List Char)) (topic : Option (List Char)) :
    (validate_submission answers topic).is_complete =
      ((validate_submission answers topic).issues.length == 0) := rfl

/-- Claim C2: `validate_submission` reports `is_complete = true` iff no
answer's analysis has tier Missing and the overall quality score is at
least 70; equivalently, its issues list is empty exactly under those
two conditions. -/
theorem claim_C2 (answers : List (List Char)) (topic : Option (List Char)) :
    ((validate_submission answers topic).is_complete = true ↔
      ((∀ a ∈ submission_analyses answers topic, a.quality ≠ AnswerQuality.missing) ∧
        70 ≤ (calculate_metrics (submission_analyses answers topic)).overall_quality_score)) ∧
    ((validate_submission answers topic).issues = [] ↔
      ((∀ a ∈ submission_analyses answers topic, a.quality ≠ AnswerQuality.missing) ∧
        70 ≤ (calculate_metrics (submission_analyses answers topic)).overall_quality_score)) := by
  have hmiss : ((submission_analyses answers topic).countP
      (fun a => decide (a.quality = AnswerQuality.missing)) = 0) ↔
      (∀ a ∈ submission_analyses answers topic, a.quality ≠ AnswerQuality.missing) := by
    rw [List.countP_eq_zero]
    simp
  have hgoal : (validate_submission answers topic).issues = [] ↔
      ((∀ a ∈ submission_analyses answers topic, a.quality ≠ AnswerQuality.missing) ∧
        70 ≤ (calculate_metrics (submission_analyses answers topic)).overall_quality_score) := by
    rw [validate_submission_issues, ← hmiss, ← not_lt]
    by_cases hm : (submission_analyses answers topic).countP
        (fun a => decide (a.quality = AnswerQuality.missing)) = 0
    · by_cases hq : (calculate_metrics (submission_analyses answers topic)).overall_quality_score < 70
      · simp [hm, hq]
      · simp [hm, hq]
    · have hpos : 0 < (submission_analyses answers topic).countP
          (fun a => decide (a.quality = AnswerQuality.missing)) := Nat.pos_of_ne_zero hm
      by_cases hq : (calculate_metrics (submission_analyses answers topic)).overall_quality_score < 70
      · simp [hm, hq, hpos]
      · simp [hm, hq, hpos]
  constructor
  · rw [validate_submission_is_complete]
    have hlen : ((validate_submission answers topic).issues.length == 0) = true ↔
        (validate_submission answers topic).issues = [] := by
      simp [List.length_eq_zero]
    exact hlen.trans hgoal
  · exact hgoal

theorem lookup_map_replace {α : Type} (d : List (List Char × α)) (k : List Char) (v : α)
    (hany : d.any (fun p => p.1 == k) = true) :
    (d.map (fun p => if p.1 == k then (k, v) else p)).lookup k = some v := by
  induction d with
  | nil => simp at hany
  | cons p t ih =>
    obtain ⟨pk, pv⟩ := p
    simp only [List.any_cons, Bool.or_eq_true] at hany
    by_cases hk : pk = k
    · subst hk
      rw [List.map_cons, if_pos (beq_self_eq_true pk)]
      exact List.lookup_cons_self
    · have hf : (pk == k) = false := by simp [hk]
      have hf2 : (k == pk) = false := by simp [Ne.symm hk]
      have hta : t.any (fun p => p.1 == k) = true := by
        rcases hany with h1 | h1
        · rw [beq_iff_eq] at h1
          exact absurd h1 hk
        · exact h1
      rw [List.map_cons, if_neg (by simp [hf]), List.lookup_cons, hf2]
      exact ih hta

theorem lookup_append_single {α : Type} (d : List (List Char × α)) (k : List Char) (v : α)
    (hnone : d.any (fun p => p.1 == k) = false) :
    (d ++ [(k, v)]).lookup k = some v := by
  induction d with
  | nil => exact List.lookup_cons_self
  | cons p t ih =>
    obtain ⟨pk, pv⟩ := p
    simp only [List.any_cons, Bool.or_eq_false_iff] at hnone
    have hk : pk ≠ k := by
      intro he
      rw [he, beq_self_eq_true] at hnone
      exact Bool.noConfusion hnone.1
    have hf2 : (k == pk) = false := by simp [Ne.symm hk]
    rw [List.cons_append, List.lookup_cons, hf2]
    exact ih hnone.2

theorem lookup_dictSet_self {α : Type} (d : List (List Char × α)) (k : List Char) (v : α) :
    (dictSet d k v).lookup k = some v := by
  unfold dictSet
  split_ifs with hany
  · exact lookup_map_replace d k v hany
  · refine lookup_append_single d k v ?_
    rw [← Bool.not_eq_true]
    exact hany

/-- Claim C9: `submit_submission` is atomic on failure — whenever it
returns a non-success result (submission not found, status not Draft,
or validation issues), the entire store state, and so the stored
submission with all its fields, is unchanged. -/
theorem claim_C9 (st : ManagerState) (id : List Char) (answers : List (List Char))
    (now : List Char) (st' : ManagerState) (r : SubmitResult)
    (h : submit_submission st id answers now = (st', r))
    (hf : r.is_success = false) : st' = st := by
  simp only [submit_submission] at h
  split at h
  · cases h; rfl
  · split at h
    · cases h; rfl
    · split at h
      · cases h; rfl
      · cases h; simp [SubmitResult.is_success] at hf

/-- Claim C9 witness: a failing submit (unknown submission id) leaves
the empty store untouched. -/
theorem claim_C9_witness :
    (submit_submission emptyState "x".data [] "t".data).1 = emptyState :=
  claim_C9 emptyState "x".data [] "t".data
    (submit_submission emptyState "x".data [] "t".data).1
    (submit_submission emptyState "x".data [] "t".data).2
    rfl (by decide)

/-- Claim C7: the Draft-to-Submitted transition happens at most once
and Submitted is terminal.  A successful `submit_submission` requires
that the submission exists, is in Draft status, and that the final
validation reports zero issues; afterwards the stored status is
Submitted, and every subsequent `submit_submission` or
`auto_save_submission` on that submission returns failure and leaves
the store (hence the answers and status) unchanged. -/
theorem claim_C7 (st : ManagerState) (id : List Char) (answers : List (List Char))
    (now : List Char) (st' : ManagerState) (r : SubmitResult)
    (h : submit_submission st id answers now = (st', r))
    (hs : r.is_success = true) :
    (∃ sub, st.submissions.lookup id = some sub ∧ sub.status = SubmissionStatus.draft ∧
      (validate_submission answers
        ((st.assignments_store.lookup (sub.assignment_id ++ "_".data ++ sub.engineer_id)).map
          (fun a => a.topic))).issues = []) ∧
    (∃ sub2, st'.submissions.lookup id = some sub2 ∧ sub2.status = SubmissionStatus.submitted) ∧
    (∀ (answers2 : List (List Char)) (now2 : List Char),
      submit_submission st' id answers2 now2 =
        (st', SubmitResult.wrong_status SubmissionStatus.submitted)) ∧
    (∀ (answers2 : List (List Char)) (ts : Option (List (List Char × Nat))) (now2 : List Char),
      auto_save_submission st' id answers2 ts now2 = (st', false)) := by
  rcases hl : st.submissions.lookup id with _ | sub
  · simp only [submit_submission, hl] at h
    cases h
    exact Bool.noConfusion hs
  · simp only [submit_submission, hl] at h
    by_cases hd : sub.status = SubmissionStatus.draft
    · rw [if_neg (not_not_intro hd)] at h
      by_cases hv : (validate_submission answers
          ((st.assignments_store.lookup (sub.assignment_id ++ "_".data ++ sub.engineer_id)).map
            (fun a => a.topic))).is_complete = true
      · rw [if_neg (by rw [hv]; exact Bool.noConfusion)] at h
        cases h
        have hissues : (validate_submission answers
            ((st.assignments_store.lookup (sub.assignment_id ++ "_".data ++ sub.engineer_id)).map
              (fun a => a.topic))).issues = [] := by
          have h2 := validate_submission_is_complete answers
            ((st.assignments_store.lookup (sub.assignment_id ++ "_".data ++ sub.engineer_id)).map
              (fun a => a.topic))
          rw [hv] at h2
          exact List.eq_nil_of_length_eq_zero (by simpa using h2.symm)
        refine ⟨⟨sub, rfl, hd, hissues⟩, ⟨_, lookup_dictSet_self _ _ _, rfl⟩, ?_, ?_⟩
        · intro answers2 now2
          simp [submit_submission, lookup_dictSet_self]
        · intro answers2 ts now2
          simp [auto_save_submission, lookup_dictSet_self]
      · have hvf : (validate_submission answers
            ((st.assignments_store.lookup (sub.assignment_id ++ "_".data ++ sub.engineer_id)).map
              (fun a => a.topic))).is_complete = false := by
          cases hvv : (validate_submission answers
              ((st.assignments_store.lookup (sub.assignment_id ++ "_".data ++ sub.engineer_id)).map
                (fun a => a.topic))).is_complete
          · rfl
          · exact absurd hvv hv
        rw [if_pos (by rw [hvf]; rfl)] at h
        cases h
        exact Bool.noConfusion hs
    · rw [if_pos hd] at h
      cases h
      exact Bool.noConfusion hs

/-- Claim C7 witness: a concrete successful submit on the draft
fixture, after which the stored submission is Submitted. -/
theorem claim_C7_witness :
    ∃ sub2, ((submit_submission draftState "s1".data [c7Text] "t1".data).1).submissions.lookup "s1".data
        = some sub2 ∧
      sub2.status = SubmissionStatus.submitted :=
  (claim_C7 draftState "s1".data [c7Text] "t1".data
    (submit_submission draftState "s1".data [c7Text] "t1".data).1
    (submit_submission draftState "s1".data [c7Text] "t1".data).2
    rfl (by decide)).2.1
